import Mathlib

/-!
Verification of the computation layer of the CO₂ balloon calculator
(`src/app.py`).  The science-layer functions are shallowly embedded:
the purely rational arithmetic (`soda_emissions`, `car_emissions`,
`flight_emissions`) over `ℚ`, and the functions involving π or cube
roots (`sphere_diameter`, `lethal_radius`, `victim_estimate`) over `ℝ`
with `Real.rpow` for the fractional power and `Real.pi` for π.
Python `int()` truncation toward zero is modelled by `pyTrunc`, and the
Python semantics of division by zero (a raised `ZeroDivisionError`) by
an `Except`-valued runner.
-/

open Real

/-- `WORLD_POP = 8.1e9`, module-level constant of `app.py`. -/
def WORLD_POP : ℚ := 8100000000

/-- `LA_DENSITY = 6000` people per km², module-level constant of `app.py`. -/
def LA_DENSITY : ℚ := 6000

/-- `GIRAFFE_HT = 5.5` m, module-level constant of `app.py`. -/
def GIRAFFE_HT : ℚ := 11/2

/-- `soda_emissions(litres_per_capita_yr, g_co2_per_l)` from `app.py`:
daily litres, grams, tonnes and STP gas volume of CO₂ from soda.
The returned dict `{"t": daily_t, "m3": volume_m3}` is modelled as a pair
`(daily_t, volume_m3)`. -/
def soda_emissions (litres_per_capita_yr g_co2_per_l : ℚ) : ℚ × ℚ :=
  let daily_litres := (WORLD_POP * litres_per_capita_yr) / 365
  let daily_g := daily_litres * g_co2_per_l
  let daily_t := daily_g / 1000000
  let moles := daily_g / 44
  let volume_m3 := moles * (224/10000)
  (daily_t, volume_m3)

/-- Generalisation of `soda_emissions` in which the world population is a
parameter rather than the module constant; used to express how the output
scales with the population figure.  `soda_emissions` is definitionally
this function applied at `WORLD_POP`. -/
def soda_emissions_pop (pop litres_per_capita_yr g_co2_per_l : ℚ) : ℚ × ℚ :=
  let daily_litres := (pop * litres_per_capita_yr) / 365
  let daily_g := daily_litres * g_co2_per_l
  let daily_t := daily_g / 1000000
  let moles := daily_g / 44
  let volume_m3 := moles * (224/10000)
  (daily_t, volume_m3)

/-- `car_emissions(n_cars, miles_per_day, g_co2_mile)` from `app.py`:
tonnes of CO₂ per day for the car fleet. -/
def car_emissions (n_cars miles_per_day g_co2_mile : ℚ) : ℚ :=
  n_cars * miles_per_day * g_co2_mile / 1000000

/-- `flight_emissions(n_flights, t_co2_per_flight)` from `app.py`:
tonnes of CO₂ per day for scheduled flights. -/
def flight_emissions (n_flights t_co2_per_flight : ℚ) : ℚ :=
  n_flights * t_co2_per_flight

/-- `sphere_diameter(volume_m3)` from `app.py`:
`r = (3V / (4π)) ** (1/3)`, diameter `2r`. -/
noncomputable def sphere_diameter (volume_m3 : ℝ) : ℝ :=
  let r := (3 * volume_m3 / (4 * Real.pi)) ^ ((1:ℝ)/3)
  2 * r

/-- `lethal_radius(daily_t, nyos_mass_t, nyos_radius_km)` from `app.py`:
Nyos cube-root scaling, `nyos_radius_km * (daily_t / nyos_mass_t) ** (1/3)`.
The Python defaults are `nyos_mass_t = 1.6e6` and `nyos_radius_km = 25`;
here all three arguments are explicit. -/
noncomputable def lethal_radius (daily_t nyos_mass_t nyos_radius_km : ℝ) : ℝ :=
  nyos_radius_km * (daily_t / nyos_mass_t) ^ ((1:ℝ)/3)

/-- Python `int()` applied to a real value: truncation toward zero. -/
noncomputable def pyTrunc (x : ℝ) : ℤ :=
  if 0 ≤ x then ⌊x⌋ else ⌈x⌉

/-- `victim_estimate(kill_r_km, density, lethality)` from `app.py`:
`int(π * kill_r_km² * density * lethality)`.  The Python defaults are
`density = LA_DENSITY` and `lethality = 0.35`; here all three arguments
are explicit. -/
noncomputable def victim_estimate (kill_r_km density lethality : ℝ) : ℤ :=
  pyTrunc (Real.pi * kill_r_km ^ 2 * density * lethality)

/-- Python errors that the science layer of `app.py` can raise. -/
inductive PyError
  | zeroDivisionError
  deriving DecidableEq

/-- Python division, which raises `ZeroDivisionError` on a zero
denominator instead of returning a value. -/
noncomputable def pyDiv (a b : ℝ) : Except PyError ℝ :=
  if b = 0 then Except.error PyError.zeroDivisionError else Except.ok (a / b)

/-- `lethal_radius` with Python's division semantics made explicit: the
body performs `daily_t / nyos_mass_t` first, so a zero reference mass
raises `ZeroDivisionError`, which no surrounding code catches. -/
noncomputable def lethal_radius_run (daily_t nyos_mass_t nyos_radius_km : ℝ) :
    Except PyError ℝ :=
  (pyDiv daily_t nyos_mass_t).map (fun q => nyos_radius_km * q ^ ((1:ℝ)/3))

/-! ## Theorems about the emissions calculators -/

/-- Claim C2: `car_emissions(fleet_size, miles, g_per_mile)` returns
`fleet_size * miles * g_per_mile / 1e6` tonnes per day for every input with
no failure mode, and `car_emissions(10e6, 30, 318) = 95400` exactly. -/
theorem car_emissions_formula_and_scenario :
    (∀ n m g : ℚ, car_emissions n m g = n * m * g / 1000000) ∧
    car_emissions 10000000 30 318 = 95400 := by
  constructor
  · intro n m g
    rfl
  · norm_num [car_emissions]

/-- Claim C3: `flight_emissions(n, t)` returns `n * t` for every input with
no failure mode, and `flight_emissions(6000, 11.37) = 68220` exactly. -/
theorem flight_emissions_formula_and_scenario :
    (∀ n t : ℚ, flight_emissions n t = n * t) ∧
    flight_emissions 6000 (1137/100) = 68220 := by
  constructor
  · intro n t
    rfl
  · norm_num [flight_emissions]

/-- Claim C10: `soda_emissions` takes exactly two arguments and its result
depends only on them: it is the population-parametric computation applied at
the module constant `WORLD_POP`, which equals `8.1e9` and is not supplied by
the caller. -/
theorem soda_emissions_fixed_population :
    (∀ lpc g : ℚ, soda_emissions lpc g = soda_emissions_pop WORLD_POP lpc g) ∧
    WORLD_POP = 8100000000 := by
  exact ⟨fun lpc g => rfl, rfl⟩

/-- Claim C1, counterexample: at `litres_per_capita = 23.47`, `g_per_l = 6`
(and the module population `8.1e9`), the code's daily tonnage is nowhere near
the claimed `798771`: it differs from it by more than `100000` (it is in fact
`1140642/365 ≈ 3125.05`). -/
theorem soda_emissions_scenario_refuted :
    ¬ |(soda_emissions (2347/100) 6).1 - 798771| ≤ 100000 := by
  norm_num [soda_emissions, WORLD_POP]
  rw [abs_of_pos (by norm_num : (0:ℚ) < 290410773/365)]
  norm_num

/-- Claim C1, amended: `soda_emissions` computes
`daily_litres = WORLD_POP * rate / 365`, `daily_grams = daily_litres * g_per_l`,
returns tonnes `daily_grams / 1e6` and volume `(daily_grams / 44) * 0.0224`;
at `litres_per_capita = 23.47`, `g_per_l = 6` it yields exactly
`1140642/365 ≈ 3125.05` tonnes and `1277519040/803 ≈ 1590932.8` m³ per day. -/
theorem soda_emissions_formula_and_scenario :
    (∀ lpc g : ℚ, soda_emissions lpc g =
      (WORLD_POP * lpc / 365 * g / 1000000,
       WORLD_POP * lpc / 365 * g / 44 * (224/10000))) ∧
    (soda_emissions (2347/100) 6).1 = 1140642/365 ∧
    (soda_emissions (2347/100) 6).2 = 1277519040/803 := by
  refine ⟨fun lpc g => rfl, ?_, ?_⟩
  · norm_num [soda_emissions, WORLD_POP]
  · norm_num [soda_emissions, WORLD_POP]

/-- Claim C7: for non-negative inputs the soda outputs are non-negative, and
both outputs scale linearly with the population figure and with the
per-capita rate; in particular doubling the per-capita rate doubles the
returned daily mass. -/
theorem soda_emissions_nonneg_and_linear (lpc g c : ℚ)
    (hlpc : 0 ≤ lpc) (hg : 0 ≤ g) :
    0 ≤ (soda_emissions lpc g).1 ∧ 0 ≤ (soda_emissions lpc g).2 ∧
    soda_emissions_pop (c * WORLD_POP) lpc g =
      (c * (soda_emissions lpc g).1, c * (soda_emissions lpc g).2) ∧
    soda_emissions (c * lpc) g =
      (c * (soda_emissions lpc g).1, c * (soda_emissions lpc g).2) ∧
    (soda_emissions (2 * lpc) g).1 = 2 * (soda_emissions lpc g).1 := by
  have hpop : (0:ℚ) ≤ WORLD_POP := by norm_num [WORLD_POP]
  refine ⟨?_, ?_, ?_, ?_, ?_⟩
  · simp only [soda_emissions]
    positivity
  · simp only [soda_emissions]
    positivity
  · simp only [soda_emissions, soda_emissions_pop, Prod.mk.injEq]
    constructor <;> ring
  · simp only [soda_emissions, Prod.mk.injEq]
    constructor <;> ring
  · simp only [soda_emissions]
    ring

/-- Witness for `soda_emissions_nonneg_and_linear` at
`lpc = 10`, `g = 6`, `c = 3`. -/
theorem soda_emissions_nonneg_and_linear_witness :
    0 ≤ (soda_emissions 10 6).1 ∧ 0 ≤ (soda_emissions 10 6).2 ∧
    soda_emissions_pop (3 * WORLD_POP) 10 6 =
      (3 * (soda_emissions 10 6).1, 3 * (soda_emissions 10 6).2) ∧
    soda_emissions (3 * 10) 6 =
      (3 * (soda_emissions 10 6).1, 3 * (soda_emissions 10 6).2) ∧
    (soda_emissions (2 * 10) 6).1 = 2 * (soda_emissions 10 6).1 :=
  soda_emissions_nonneg_and_linear 10 6 3 (by norm_num) (by norm_num)

/-! ## Cube-root helper lemmas -/

/-- The real cube root (as `rpow` by `1/3`) of `a ^ 3` is `a` for `a ≥ 0`. -/
lemma rpow_third_of_cube {a : ℝ} (ha : 0 ≤ a) :
    (a ^ (3:ℕ) : ℝ) ^ ((1:ℝ)/3) = a := by
  rw [← Real.rpow_natCast a 3, ← Real.rpow_mul ha]
  norm_num

/-- Strict upper bound on a cube root from a strict upper bound on the cube. -/
lemma rpow_third_lt {x b : ℝ} (hx : 0 ≤ x) (hb : 0 ≤ b) (h : x < b ^ 3) :
    x ^ ((1:ℝ)/3) < b := by
  have := Real.rpow_lt_rpow hx h (by norm_num : (0:ℝ) < 1/3)
  rwa [rpow_third_of_cube hb] at this

/-- Strict lower bound on a cube root from a strict lower bound on the cube. -/
lemma lt_rpow_third {x a : ℝ} (ha : 0 ≤ a) (h : a ^ 3 < x) :
    a < x ^ ((1:ℝ)/3) := by
  have := Real.rpow_lt_rpow (pow_nonneg ha 3) h (by norm_num : (0:ℝ) < 1/3)
  rwa [rpow_third_of_cube ha] at this

/-! ## Theorems about the hazard heuristics and sphere sizing -/

/-- Claim C4: `lethal_radius` is strictly increasing in the daily mass (for
non-negative mass and positive reference mass and radius), and reproduces the
reference point exactly: `lethal_radius m m r = r` whenever `m > 0`. -/
theorem lethal_radius_mono_and_reference (M r m₁ m₂ rId : ℝ)
    (hM : 0 < M) (hr : 0 < r) (h₁ : 0 ≤ m₁) (h₁₂ : m₁ < m₂) :
    lethal_radius m₁ M r < lethal_radius m₂ M r ∧
    lethal_radius M M rId = rId := by
  constructor
  · unfold lethal_radius
    have hq : m₁ / M < m₂ / M := by
      exact div_lt_div_of_pos_right h₁₂ hM
    have hq₁ : 0 ≤ m₁ / M := div_nonneg h₁ hM.le
    exact mul_lt_mul_of_pos_left
      (Real.rpow_lt_rpow hq₁ hq (by norm_num)) hr
  · unfold lethal_radius
    rw [div_self (ne_of_gt hM), Real.one_rpow, mul_one]

/-- Witness for `lethal_radius_mono_and_reference` at
`M = 1600000`, `r = 25`, `m₁ = 0`, `m₂ = 1600000`, `rId = 25`. -/
theorem lethal_radius_mono_and_reference_witness :
    lethal_radius 0 1600000 25 < lethal_radius 1600000 1600000 25 ∧
    lethal_radius 1600000 1600000 25 = 25 :=
  lethal_radius_mono_and_reference 1600000 25 0 1600000 25
    (by norm_num) (by norm_num) le_rfl (by norm_num)

/-- Claim C6: `sphere_diameter(V) = 2 * (3V / (4π))^(1/3)` for every volume,
`sphere_diameter 0 = 0`, and `sphere_diameter` is monotone in the volume over
the non-negative domain. -/
theorem sphere_diameter_formula_zero_mono (V V' : ℝ)
    (hV : 0 ≤ V) (hVV' : V ≤ V') :
    sphere_diameter V = 2 * (3 * V / (4 * Real.pi)) ^ ((1:ℝ)/3) ∧
    sphere_diameter 0 = 0 ∧
    sphere_diameter V ≤ sphere_diameter V' := by
  refine ⟨rfl, ?_, ?_⟩
  · unfold sphere_diameter
    simp only [mul_zero, zero_div, zero_mul]
    rw [Real.zero_rpow (by norm_num : ((1:ℝ)/3) ≠ 0)]
    ring
  · unfold sphere_diameter
    have hpi : (0:ℝ) < 4 * Real.pi := by positivity
    have harg : 3 * V / (4 * Real.pi) ≤ 3 * V' / (4 * Real.pi) := by
      gcongr
    have harg₀ : 0 ≤ 3 * V / (4 * Real.pi) := by positivity
    have := Real.rpow_le_rpow harg₀ harg (by norm_num : (0:ℝ) ≤ 1/3)
    simpa using by linarith [this]

/-- Witness for `sphere_diameter_formula_zero_mono` at `V = 0`, `V' = 1`. -/
theorem sphere_diameter_formula_zero_mono_witness :
    sphere_diameter 0 = 2 * (3 * 0 / (4 * Real.pi)) ^ ((1:ℝ)/3) ∧
    sphere_diameter 0 = 0 ∧
    sphere_diameter 0 ≤ sphere_diameter 1 :=
  sphere_diameter_formula_zero_mono 0 1 le_rfl (by norm_num)

/-- Rational bracketing of the code's value of
`lethal_radius(798771, 1.6e6, 25)`: it lies strictly between `19.8` and
`19.9` (the cube of `0.792` is below `798771/1600000` and the cube of
`0.796` is above it). -/
lemma lethal_radius_nyos_scenario_bounds :
    19.8 < lethal_radius 798771 1600000 25 ∧
    lethal_radius 798771 1600000 25 < 19.9 := by
  unfold lethal_radius
  constructor
  · have h : (0.792:ℝ) < ((798771:ℝ)/1600000) ^ ((1:ℝ)/3) :=
      lt_rpow_third (by norm_num) (by norm_num)
    calc (19.8:ℝ) = 25 * 0.792 := by norm_num
    _ < 25 * (((798771:ℝ)/1600000) ^ ((1:ℝ)/3)) :=
      mul_lt_mul_of_pos_left h (by norm_num)
  · have h : ((798771:ℝ)/1600000) ^ ((1:ℝ)/3) < (0.796:ℝ) :=
      rpow_third_lt (by norm_num) (by norm_num) (by norm_num)
    calc 25 * (((798771:ℝ)/1600000) ^ ((1:ℝ)/3)) < 25 * 0.796 :=
      mul_lt_mul_of_pos_left h (by norm_num)
    _ = 19.9 := by norm_num

/-- Claim C8, counterexample: `lethal_radius(798771, 1.6e6, 25)` is not
within `1` of the claimed `21.1` km: the code's value lies strictly below
`19.9`. -/
theorem lethal_radius_scenario_refuted :
    ¬ |lethal_radius 798771 1600000 25 - 21.1| < 1 := by
  intro h
  rw [abs_lt] at h
  have := lethal_radius_nyos_scenario_bounds.2
  linarith [h.1]

/-- Claim C8, amended: `lethal_radius(798771, 1.6e6, 25)` is approximately
`19.8` km — strictly between `19.8` and `19.9` — rather than `21.1`. -/
theorem lethal_radius_scenario_value :
    19.8 < lethal_radius 798771 1600000 25 ∧
    lethal_radius 798771 1600000 25 < 19.9 :=
  lethal_radius_nyos_scenario_bounds

/-- Claim C5: for non-negative radius, density and lethality,
`victim_estimate` equals `⌊π * r² * density * lethality⌋` as an integer, is
non-negative, and is monotone in the radius. -/
theorem victim_estimate_floor_nonneg_mono (r d l r' : ℝ)
    (hr : 0 ≤ r) (hd : 0 ≤ d) (hl : 0 ≤ l) (hrr' : r ≤ r') :
    victim_estimate r d l = ⌊Real.pi * r ^ 2 * d * l⌋ ∧
    0 ≤ victim_estimate r d l ∧
    victim_estimate r d l ≤ victim_estimate r' d l := by
  have h0 : 0 ≤ Real.pi * r ^ 2 * d * l := by positivity
  have h0' : 0 ≤ Real.pi * r' ^ 2 * d * l := by positivity
  refine ⟨?_, ?_, ?_⟩
  · unfold victim_estimate pyTrunc
    rw [if_pos h0]
  · unfold victim_estimate pyTrunc
    rw [if_pos h0]
    exact Int.floor_nonneg.mpr h0
  · unfold victim_estimate pyTrunc
    rw [if_pos h0, if_pos h0']
    apply Int.floor_le_floor
    gcongr

/-- Witness for `victim_estimate_floor_nonneg_mono` at
`r = 1`, `d = 1`, `l = 1`, `r' = 2`. -/
theorem victim_estimate_floor_nonneg_mono_witness :
    victim_estimate 1 1 1 = ⌊Real.pi * 1 ^ 2 * 1 * 1⌋ ∧
    0 ≤ victim_estimate 1 1 1 ∧
    victim_estimate 1 1 1 ≤ victim_estimate 2 1 1 :=
  victim_estimate_floor_nonneg_mono 1 1 1 2
    (by norm_num) (by norm_num) (by norm_num) (by norm_num)

/-- Claim C9: the science layer performs no input validation: with a zero
reference mass `lethal_radius` raises Python's `ZeroDivisionError`, which
propagates uncaught, while for any non-zero reference mass the call returns
the pure value normally. -/
theorem lethal_radius_zero_mass_raises (m M r : ℝ) (hM : M ≠ 0) :
    lethal_radius_run m 0 r = Except.error PyError.zeroDivisionError ∧
    lethal_radius_run m M r = Except.ok (lethal_radius m M r) := by
  constructor
  · unfold lethal_radius_run pyDiv
    rw [if_pos rfl]
    rfl
  · unfold lethal_radius_run pyDiv
    rw [if_neg hM]
    rfl

/-- Witness for `lethal_radius_zero_mass_raises` at
`m = 798771`, `M = 1600000`, `r = 25`. -/
theorem lethal_radius_zero_mass_raises_witness :
    lethal_radius_run 798771 0 25 = Except.error PyError.zeroDivisionError ∧
    lethal_radius_run 798771 1600000 25 =
      Except.ok (lethal_radius 798771 1600000 25) :=
  lethal_radius_zero_mass_raises 798771 1600000 25 (by norm_num)
